import Mathlib

/-!
# Verification of the Smart Cities sentiment web-app core

Shallow embedding of the sentiment pipeline and dataset store of
`src/app.py` and `src/smartcities_analysis.py`.

Modelling conventions:
* Python strings are Lean `String`s; all character-level work is done on
  `List Char`, which reduces in the kernel.
* Python floats are modelled as rationals (`ℚ`); concrete score literals
  are written with `mkRat`.
* The external GoogleTranslator and the VADER `polarity_scores` calls are
  parameters of the embedded functions; `Option.none` models the external
  call raising an exception.
* A value that may be the Python `None` (or a missing/non-string field) is
  modelled by `PyVal.pyNone`; all non-`None` inputs the callers can
  produce are strings.
* The CSV file on disk is modelled by `FileState`: absent, empty,
  unparsable, or a well-formed table of rows.
-/

/-! ## Python string primitives -/

/-- Model of Python `str.lower` on one character: ASCII letters plus the
accented Spanish characters that occur in this code base. -/
def pyLowerChar (c : Char) : Char :=
  if 'A' ≤ c ∧ c ≤ 'Z' then Char.ofNat (c.toNat + 32)
  else if c = 'Á' then 'á'
  else if c = 'É' then 'é'
  else if c = 'Í' then 'í'
  else if c = 'Ó' then 'ó'
  else if c = 'Ú' then 'ú'
  else if c = 'Ñ' then 'ñ'
  else if c = 'Ü' then 'ü'
  else c

/-- Model of Python `str.lower`. -/
def pyLower (s : String) : String := String.mk (s.toList.map pyLowerChar)

/-- Python substring containment `needle in haystack` on character lists. -/
def pyContains (needle : List Char) : List Char → Bool
  | [] => needle.isEmpty
  | c :: rest => needle.isPrefixOf (c :: rest) || pyContains needle rest

/-- Python substring containment `needle in haystack` on strings. -/
def pyIn (needle haystack : String) : Bool :=
  pyContains needle.toList haystack.toList

/-- Helper for `pySplit`: accumulates the current (reversed) token while
scanning the character list. -/
def tokensAux : List Char → List Char → List (List Char)
  | cur, [] => if cur.isEmpty then [] else [cur.reverse]
  | cur, c :: rest =>
    if c.isWhitespace then
      if cur.isEmpty then tokensAux [] rest
      else cur.reverse :: tokensAux [] rest
    else tokensAux (c :: cur) rest

/-- Model of Python `str.split()` with no argument: split on runs of
whitespace, dropping leading/trailing whitespace and empty pieces. -/
def pySplit (s : String) : List String :=
  (tokensAux [] s.toList).map String.mk

/-- Joins tokens with single spaces (the effect of `re.sub(r'\s+', ' ', ·)`
followed by `strip()`). -/
def joinTokens : List (List Char) → List Char
  | [] => []
  | [t] => t
  | t :: ts => t ++ ' ' :: joinTokens ts

/-- A Python value that is either a string or the non-string `None`. -/
inductive PyVal where
  | str (s : String)
  | pyNone
deriving DecidableEq, Repr

/-- The string carried by a `PyVal` (used where the code has already
guaranteed the value is a string). -/
def stringOf : PyVal → String
  | .str s => s
  | .pyNone => ""

/-! ## Text normalizer (`traducir_es_en`) -/

/-- The fixed Spanish stop-word list `palabras_es` shared by both source
files. -/
def palabras_es : List String :=
  ["el", "la", "los", "las", "es", "en", "y", "de", "que", "se"]

/-- The detection test of `src/app.py` line 74 (identical in
`src/smartcities_analysis.py` line 52): some stop word occurs as a Python
substring of the lowercased text. -/
def tiene_espanol (texto : String) : Bool :=
  palabras_es.any fun palabra => pyIn palabra (pyLower texto)

/-- Embeds `traducir_es_en` from `src/app.py` (lines 63-80).
`translate` is the external `GoogleTranslator(...).translate` call;
`Option.none` models it raising, which the `except` clause turns into
returning the original text. Empty or non-string input is returned
unchanged before the detection test. -/
def traducir_es_en (translate : String → Option String) (texto : PyVal) : PyVal :=
  match texto with
  | .pyNone => .pyNone
  | .str s =>
    if s = "" then .str s
    else if tiene_espanol s ∧ 1 < (pySplit s).length then
      match translate s with
      | Option.some t => .str t
      | Option.none => .str s
    else .str s

/-- Embeds `traducir_es_en` from `src/smartcities_analysis.py`
(lines 44-59): same as the `app.py` version except that it has no
more-than-one-token guard on the translation call. -/
def traducir_es_en_sc (translate : String → Option String) (texto : PyVal) : PyVal :=
  match texto with
  | .pyNone => .pyNone
  | .str s =>
    if s = "" then .str s
    else if tiene_espanol s then
      match translate s with
      | Option.some t => .str t
      | Option.none => .str s
    else .str s

/-! ## Text cleaning (`limpiar_texto`, only in `smartcities_analysis.py`) -/

/-- The character class kept by the regex `[^a-z0-9áéíóúñü\s]` deletion in
`limpiar_texto`. -/
def keepChar (c : Char) : Bool :=
  ('a' ≤ c && c ≤ 'z') || ('0' ≤ c && c ≤ '9') ||
  c = 'á' || c = 'é' || c = 'í' || c = 'ó' || c = 'ú' || c = 'ñ' || c = 'ü' ||
  c.isWhitespace

/-- Embeds `limpiar_texto` from `src/smartcities_analysis.py`
(lines 61-70): lowercase, delete characters outside the kept class,
collapse whitespace runs to single spaces and strip the ends. -/
def limpiar_texto (texto : PyVal) : String :=
  match texto with
  | .pyNone => ""
  | .str s =>
    if s = "" then ""
    else
      let kept := (pyLower s).toList.filter keepChar
      String.mk (joinTokens (tokensAux [] kept))

/-! ## Scorer output and classifier -/

/-- The four VADER polarity scores (floats modelled as rationals). -/
structure VScores where
  neg : ℚ
  neu : ℚ
  pos : ℚ
  compound : ℚ
deriving DecidableEq, Repr

/-- Embeds `clasificar_sentimiento` from `src/app.py` (lines 82-89). -/
def clasificar_sentimiento (compound : ℚ) : String :=
  if compound ≥ mkRat 5 100 then "Positivo"
  else if compound ≤ -mkRat 5 100 then "Negativo"
  else "Neutro"

/-- Embeds `clasificar_sentimiento` from `src/smartcities_analysis.py`
(lines 72-79); textually identical to the `app.py` copy. -/
def clasificar_sentimiento_sc (compound : ℚ) : String :=
  if compound ≥ mkRat 5 100 then "Positivo"
  else if compound ≤ -mkRat 5 100 then "Negativo"
  else "Neutro"

/-! ## The two analysis entry points -/

/-- The result dictionary returned by either `analizar_sentimiento`. -/
structure AnalysisResult where
  comentario_original : PyVal
  comentario_traducido : PyVal
  neg : ℚ
  neu : ℚ
  pos : ℚ
  compound : ℚ
  sentimiento : String
deriving DecidableEq, Repr

/-- Embeds `analizar_sentimiento` from `src/app.py` (lines 91-128).
`polarity_scores` is the external VADER call; `Option.none` models it
raising, which the `except` clause turns into the defaulted neutral
result. Empty or non-string input short-circuits to the same defaults
(with `comentario or ''` for the original text). -/
def analizar_sentimiento (translate : String → Option String)
    (polarity_scores : String → Option VScores) (comentario : PyVal) :
    AnalysisResult :=
  match comentario with
  | .pyNone =>
    { comentario_original := .str "", comentario_traducido := .str "",
      neg := 0, neu := 1, pos := 0, compound := 0, sentimiento := "Neutro" }
  | .str s =>
    if s = "" then
      { comentario_original := .str "", comentario_traducido := .str "",
        neg := 0, neu := 1, pos := 0, compound := 0, sentimiento := "Neutro" }
    else
      let trad := traducir_es_en translate (.str s)
      match polarity_scores (stringOf trad) with
      | Option.some sc =>
        { comentario_original := .str s, comentario_traducido := trad,
          neg := sc.neg, neu := sc.neu, pos := sc.pos,
          compound := sc.compound,
          sentimiento := clasificar_sentimiento sc.compound }
      | Option.none =>
        { comentario_original := .str s, comentario_traducido := .str s,
          neg := 0, neu := 1, pos := 0, compound := 0, sentimiento := "Neutro" }

/-- Embeds `analizar_sentimiento` from `src/smartcities_analysis.py`
(lines 81-121): raises `ValueError` on empty/non-string input (caught by
its own `except`, yielding the defaults with the input echoed back), and
runs `limpiar_texto` on the translated text before scoring. -/
def analizar_sentimiento_sc (translate : String → Option String)
    (polarity_scores : String → Option VScores) (comentario : PyVal) :
    AnalysisResult :=
  match comentario with
  | .pyNone =>
    { comentario_original := .pyNone, comentario_traducido := .pyNone,
      neg := 0, neu := 1, pos := 0, compound := 0, sentimiento := "Neutro" }
  | .str s =>
    if s = "" then
      { comentario_original := .str s, comentario_traducido := .str s,
        neg := 0, neu := 1, pos := 0, compound := 0, sentimiento := "Neutro" }
    else
      let trad := traducir_es_en_sc translate (.str s)
      let limpio := limpiar_texto trad
      match polarity_scores limpio with
      | Option.some sc =>
        { comentario_original := .str s, comentario_traducido := trad,
          neg := sc.neg, neu := sc.neu, pos := sc.pos,
          compound := sc.compound,
          sentimiento := clasificar_sentimiento_sc sc.compound }
      | Option.none =>
        { comentario_original := .str s, comentario_traducido := .str s,
          neg := 0, neu := 1, pos := 0, compound := 0, sentimiento := "Neutro" }

/-! ## Dataset store (`data/comentarios.csv` of `src/app.py`) -/

/-- One row of the `app.py` dataset (the columns written by
`agregar_comentario` / `inicializar_dataset`). -/
structure Row where
  id : Int
  fecha : String
  nombre : String
  email : String
  comentario : String
  sentimiento : String
  compound : ℚ
  positivo : ℚ
  negativo : ℚ
  neutro : ℚ
deriving DecidableEq, Repr

/-- The fixed column schema of the `app.py` dataset. -/
def fullSchema : List String :=
  ["id", "fecha", "nombre", "email", "comentario",
   "sentimiento", "compound", "positivo", "negativo", "neutro"]

/-- A pandas DataFrame as this program uses it: either it carries the
fixed schema (with zero or more rows), or it is the bare `pd.DataFrame()`
produced on a parse failure, which has no columns at all. -/
inductive Table where
  | withSchema (rows : List Row)
  | noSchema
deriving DecidableEq, Repr

/-- The DataFrame's column list (`df.columns`). -/
def Table.cols : Table → List String
  | .withSchema _ => fullSchema
  | .noSchema => []

/-- The DataFrame's rows. -/
def Table.rows : Table → List Row
  | .withSchema rows => rows
  | .noSchema => []

/-- The pandas `df.empty` test. -/
def Table.isEmptyDf : Table → Bool
  | .withSchema rows => rows.isEmpty
  | .noSchema => true

/-- The state of the backing file `data/comentarios.csv`: missing,
present but zero bytes, present but unparsable, or a well-formed CSV
holding the given rows. -/
inductive FileState where
  | absent
  | emptyFile
  | malformed
  | wellFormed (rows : List Row)
deriving DecidableEq, Repr

/-- The rows recorded in the backing file (none unless well-formed). -/
def FileState.fileRows : FileState → List Row
  | .wellFormed rows => rows
  | _ => []

/-- Embeds `cargar_dataset` from `src/app.py` (lines 130-146): an absent
or zero-byte file yields an empty DataFrame built with the full column
schema; a readable file is parsed; a parse failure is caught and yields
the bare `pd.DataFrame()` (no columns). -/
def cargar_dataset : FileState → Table
  | .absent => .withSchema []
  | .emptyFile => .withSchema []
  | .malformed => .noSchema
  | .wellFormed rows => .withSchema rows

/-- `df['id'].max()` over a nonempty row list (0 for the empty list,
which the code never queries). -/
def maxId : List Row → Int
  | [] => 0
  | r :: rs => rs.foldl (fun a x => max a x.id) r.id

/-- The id computation of `src/app.py` line 199:
`df['id'].max() + 1 if not df.empty and 'id' in df.columns else 1`. -/
def nextId (df : Table) : Int :=
  if df.isEmptyDf = false ∧ "id" ∈ df.cols then maxId df.rows + 1 else 1

/-- Embeds `agregar_comentario` from `src/app.py` (lines 189-224).
`now` is the timestamp the clock returns; `writeOk = false` models the
`df.to_csv` call raising (disk failure), which the `except` clause turns
into `(False, None)` with the file untouched. On success the whole file
is rewritten with the appended row and `(True, resultado)` is returned. -/
def agregar_comentario (translate : String → Option String)
    (polarity_scores : String → Option VScores) (now : String)
    (writeOk : Bool) (comentario nombre email : String) (fs : FileState) :
    FileState × Bool × Option AnalysisResult :=
  let resultado := analizar_sentimiento translate polarity_scores (.str comentario)
  let df := cargar_dataset fs
  let nuevo_id := nextId df
  let nueva_fila : Row :=
    { id := nuevo_id, fecha := now,
      nombre := if nombre = "" then "Anónimo" else nombre,
      email := email, comentario := comentario,
      sentimiento := resultado.sentimiento,
      compound := resultado.compound, positivo := resultado.pos,
      negativo := resultado.neg, neutro := resultado.neu }
  if writeOk then
    (.wellFormed (df.rows ++ [nueva_fila]), true, Option.some resultado)
  else (fs, false, Option.none)

/-- Embeds the data mutation of `delete_comment` from `src/app.py`
(lines 453-469): load the table; if it is nonempty and has an `id`
column, keep every row whose id differs and rewrite the file; otherwise
leave the file untouched. It never reports an error for a missing id. -/
def delete_comment (id : Int) (fs : FileState) : FileState :=
  let df := cargar_dataset fs
  if df.isEmptyDf = false ∧ "id" ∈ df.cols then
    .wellFormed (df.rows.filter fun r => r.id ≠ id)
  else fs

/-! ## Statistics aggregator (`obtener_estadisticas`) -/

/-- The statistics dictionary (the five fields of the aggregate contract;
`app.py` additionally tags a presentation-only `status` string). -/
structure Stats where
  total : Nat
  positivos : Nat
  negativos : Nat
  neutros : Nat
  promedio_compound : ℚ
deriving DecidableEq, Repr

/-- `df['sentimiento'].value_counts().get(label, 0)`. -/
def countLabel (label : String) (rows : List Row) : Nat :=
  (rows.filter fun r => r.sentimiento = label).length

/-- Embeds `obtener_estadisticas` from `src/app.py` (lines 226-245),
applied to the loaded DataFrame: an empty DataFrame yields all-zero
statistics; otherwise counts per label and the mean compound score. -/
def obtener_estadisticas (df : Table) : Stats :=
  if df.isEmptyDf then
    { total := 0, positivos := 0, negativos := 0, neutros := 0,
      promedio_compound := 0 }
  else
    { total := df.rows.length,
      positivos := countLabel "Positivo" df.rows,
      negativos := countLabel "Negativo" df.rows,
      neutros := countLabel "Neutro" df.rows,
      promedio_compound :=
        if "compound" ∈ df.cols then
          (df.rows.map Row.compound).sum / (df.rows.length : ℚ)
        else 0 }

/-! ## Seed initialization (`inicializar_dataset` of `src/app.py`) -/

/-- The fixed seed comment list of `src/app.py` lines 156-167. -/
def ejemplos : List (String × String) :=
  [("El transporte público es muy lento en horas punta", "Carlos"),
   ("Los buses nuevos han mejorado bastante el servicio", "Ana"),
   ("Siempre hay mucha demora y desorden en los paraderos", "Luis"),
   ("Me gusta que ahora las unidades estén más limpias", "María"),
   ("El pasaje es caro para la calidad del servicio", "Pedro"),
   ("Excelente servicio en la nueva línea de metro", "Laura"),
   ("Los conductores son muy amables y profesionales", "Javier"),
   ("Falta más frecuencia en los horarios nocturnos", "Sofía"),
   ("La aplicación móvil funciona muy bien", "David"),
   ("Me siento seguro viajando en el transporte público", "Elena")]

/-- The rows built by the `for i, (comentario, nombre) in enumerate(...)`
loop of `inicializar_dataset`, starting at index `i`. -/
def seedRows (translate : String → Option String)
    (polarity_scores : String → Option VScores) (now : String) :
    Nat → List (String × String) → List Row
  | _, [] => []
  | i, (comentario, nombre) :: rest =>
    let resultado := analizar_sentimiento translate polarity_scores (.str comentario)
    { id := (i : Int) + 1, fecha := now, nombre := nombre,
      email := pyLower nombre ++ "@ejemplo.com", comentario := comentario,
      sentimiento := resultado.sentimiento,
      compound := resultado.compound, positivo := resultado.pos,
      negativo := resultado.neg, neutro := resultado.neu }
      :: seedRows translate polarity_scores now (i + 1) rest

/-- Embeds `inicializar_dataset` from `src/app.py` (lines 148-187): only
when the backing file is absent or zero bytes, write the analyzed seed
comments; otherwise leave the file untouched. -/
def inicializar_dataset (translate : String → Option String)
    (polarity_scores : String → Option VScores) (now : String)
    (fs : FileState) : FileState :=
  match fs with
  | .absent => .wellFormed (seedRows translate polarity_scores now 0 ejemplos)
  | .emptyFile => .wellFormed (seedRows translate polarity_scores now 0 ejemplos)
  | other => other

/-- File states reachable from an initially missing or empty store
through the pipeline operations (seed initialization, appends, deletes),
with arbitrary external translator/scorer behavior and clock reading at
every step. -/
inductive Reachable : FileState → Prop where
  | init_absent : Reachable .absent
  | init_empty : Reachable .emptyFile
  | seed (translate : String → Option String)
      (polarity_scores : String → Option VScores) (now : String)
      (fs : FileState) : Reachable fs →
      Reachable (inicializar_dataset translate polarity_scores now fs)
  | append (translate : String → Option String)
      (polarity_scores : String → Option VScores) (now : String)
      (writeOk : Bool) (comentario nombre email : String)
      (fs : FileState) : Reachable fs →
      Reachable (agregar_comentario translate polarity_scores now writeOk
        comentario nombre email fs).1
  | del (id : Int) (fs : FileState) : Reachable fs →
      Reachable (delete_comment id fs)

/-! ## Helper lemmas -/

/-- The classifier threshold constant as a division-free fact. -/
lemma mkRat5_eq : mkRat 5 100 = (1 : ℚ) / 20 := by
  rw [Rat.mkRat_eq_divInt]
  norm_num [Rat.divInt_eq_div]

/-- The two classifier copies are the same function. -/
lemma clasificar_sc_eq (c : ℚ) :
    clasificar_sentimiento_sc c = clasificar_sentimiento c := rfl

/-- The classifier only ever produces the three labels. -/
lemma clasificar_mem (c : ℚ) :
    clasificar_sentimiento c ∈ ["Positivo", "Negativo", "Neutro"] := by
  unfold clasificar_sentimiento
  split_ifs <;> simp

/-- Either analysis entry point only ever produces the three labels. -/
lemma analizar_sentimiento_label (translate : String → Option String)
    (polarity_scores : String → Option VScores) (comentario : PyVal) :
    (analizar_sentimiento translate polarity_scores comentario).sentimiento
      ∈ ["Positivo", "Negativo", "Neutro"] := by
  unfold analizar_sentimiento
  cases comentario with
  | pyNone => simp
  | str s =>
    by_cases h : s = ""
    · simp [h]
    · simp only [h, if_neg]
      cases polarity_scores (stringOf (traducir_es_en translate (.str s))) with
      | none => simp
      | some sc => simpa using clasificar_mem sc.compound

/-! ## C6: classifier thresholds -/

/-- C6: the classifier (both source copies) is a pure total function of
the compound score with the fixed thresholds: for every compound in
[-1, 1], `compound >= 0.05` yields Positivo, `compound <= -0.05` yields
Negativo, and any other compound yields Neutro. -/
theorem clasificar_sentimiento_thresholds (c : ℚ)
    (_hlo : -1 ≤ c) (_hhi : c ≤ 1) :
    (mkRat 5 100 ≤ c →
      clasificar_sentimiento c = "Positivo" ∧
      clasificar_sentimiento_sc c = "Positivo") ∧
    (c ≤ -mkRat 5 100 →
      clasificar_sentimiento c = "Negativo" ∧
      clasificar_sentimiento_sc c = "Negativo") ∧
    (-mkRat 5 100 < c → c < mkRat 5 100 →
      clasificar_sentimiento c = "Neutro" ∧
      clasificar_sentimiento_sc c = "Neutro") := by
  unfold clasificar_sentimiento clasificar_sentimiento_sc
  rw [mkRat5_eq]
  refine ⟨fun h => ?_, fun h => ?_, fun hl hr => ?_⟩
  · rw [if_pos h]
    exact ⟨rfl, rfl⟩
  · have hneg : ¬((1 : ℚ) / 20 ≤ c) := by
      rw [not_le]
      linarith
    rw [if_neg hneg, if_pos h]
    exact ⟨rfl, rfl⟩
  · have hneg : ¬((1 : ℚ) / 20 ≤ c) := by
      rw [not_le]
      exact hr
    have hneg2 : ¬(c ≤ -((1 : ℚ) / 20)) := by
      rw [not_le]
      exact hl
    rw [if_neg hneg, if_neg hneg2]
    exact ⟨rfl, rfl⟩

/-- Witness for C6 at the boundary example `compound = 0.04999`. -/
theorem clasificar_sentimiento_thresholds_witness :
    (-1 ≤ mkRat 4999 100000) ∧ (mkRat 4999 100000 ≤ 1) ∧
    (-mkRat 5 100 < mkRat 4999 100000) ∧ (mkRat 4999 100000 < mkRat 5 100) ∧
    (clasificar_sentimiento (mkRat 4999 100000) = "Neutro" ∧
     clasificar_sentimiento_sc (mkRat 4999 100000) = "Neutro") :=
  ⟨by decide, by decide, by decide, by decide,
   (clasificar_sentimiento_thresholds (mkRat 4999 100000)
     (by decide) (by decide)).2.2 (by decide) (by decide)⟩

/-! ## C7: statistics aggregator -/

/-- C7: on the empty table the aggregator returns exactly all-zero
statistics with mean 0.0, and on every non-empty table the mean compound
equals the arithmetic mean of the `compound` column. -/
theorem obtener_estadisticas_spec :
    obtener_estadisticas (Table.withSchema []) =
      { total := 0, positivos := 0, negativos := 0, neutros := 0,
        promedio_compound := 0 } ∧
    ∀ rows : List Row, rows ≠ [] →
      (obtener_estadisticas (Table.withSchema rows)).promedio_compound =
        (rows.map Row.compound).sum / (rows.length : ℚ) := by
  constructor
  · rfl
  · intro rows h
    match rows, h with
    | r :: rs, _ =>
      simp [obtener_estadisticas, Table.isEmptyDf, Table.rows, Table.cols,
        countLabel, fullSchema]

/-- A sample concrete row used by witnesses. -/
def sampleRow : Row :=
  { id := 1, fecha := "2024-01-01 00:00:00", nombre := "Ana", email := "",
    comentario := "ok", sentimiento := "Neutro", compound := 0,
    positivo := 0, negativo := 0, neutro := 1 }

/-- Witness for C7 on a concrete one-row table. -/
theorem obtener_estadisticas_spec_witness :
    ([sampleRow] ≠ ([] : List Row)) ∧
    (obtener_estadisticas (Table.withSchema [sampleRow])).promedio_compound =
      (([sampleRow].map Row.compound).sum / (([sampleRow].length : Nat) : ℚ)) :=
  ⟨by decide, obtener_estadisticas_spec.2 [sampleRow] (by decide)⟩

/-! ## C3: language-detection heuristic -/

/-- `pyContains` agrees with list-infix containment. -/
lemma pyContains_iff (p : List Char) (s : List Char) :
    pyContains p s = true ↔ p <:+: s := by
  induction s with
  | nil =>
    simp [pyContains, List.isEmpty_iff]
  | cons c rest ih =>
    simp [pyContains, List.infix_cons_iff, List.isPrefixOf_iff_prefix, ih]

/-- The detection predicate exactly as the claim words it: some lowercase
whitespace-delimited token of the text equals a stop word, and the text
has more than one token. (Stated for comparison with the code's actual
substring test.) -/
def spanish_token_claim (s : String) : Prop :=
  (∃ t ∈ pySplit (pyLower s), t ∈ palabras_es) ∧ 1 < (pySplit s).length

instance (s : String) : Decidable (spanish_token_claim s) := by
  unfold spanish_token_claim
  infer_instance

/-- C3 counterexample: on "hello there" no lowercase token equals a stop
word, yet both normalizers invoke translation (because "el" is a Python
substring of "hello"), so the text is not returned unchanged — the claim
as stated is false. -/
theorem spanish_detection_counterexample :
    ¬ spanish_token_claim "hello there" ∧
    traducir_es_en (fun _ => Option.some "X") (.str "hello there") ≠
      PyVal.str "hello there" ∧
    traducir_es_en_sc (fun _ => Option.some "X") (.str "hello there") ≠
      PyVal.str "hello there" := by decide

/-- C3 amended: detection is substring containment, not token equality:
a nonempty text is treated as Spanish exactly when some stop word occurs
as a substring of the lowercased text. The `app.py` copy invokes
translation exactly when additionally the text has more than one
whitespace-delimited token, while the `smartcities_analysis.py` copy
invokes translation on any detected text regardless of token count; in
every other case the text is returned unchanged. -/
theorem traducir_es_en_detection (s : String)
    (translate : String → Option String) (hne : s ≠ "") :
    (tiene_espanol s = true ↔
      ∃ p ∈ palabras_es, p.toList <:+: (pyLower s).toList) ∧
    ((tiene_espanol s = true ∧ 1 < (pySplit s).length) →
      traducir_es_en translate (.str s) =
        (match translate s with
         | Option.some t => PyVal.str t
         | Option.none => PyVal.str s)) ∧
    (¬(tiene_espanol s = true ∧ 1 < (pySplit s).length) →
      traducir_es_en translate (.str s) = .str s) ∧
    (tiene_espanol s = true →
      traducir_es_en_sc translate (.str s) =
        (match translate s with
         | Option.some t => PyVal.str t
         | Option.none => PyVal.str s)) ∧
    (¬ tiene_espanol s = true →
      traducir_es_en_sc translate (.str s) = .str s) := by
  refine ⟨?_, fun h => ?_, fun h => ?_, fun h => ?_, fun h => ?_⟩
  · unfold tiene_espanol pyIn
    simp [List.any_eq_true, pyContains_iff]
  · simp only [traducir_es_en]
    rw [if_neg hne, if_pos h]
  · simp only [traducir_es_en]
    rw [if_neg hne, if_neg h]
  · simp only [traducir_es_en_sc]
    rw [if_neg hne, if_pos h]
  · simp only [traducir_es_en_sc]
    rw [if_neg hne, if_neg h]

/-- A concrete always-succeeding translator used by witnesses. -/
def trCat : String → Option String := fun _ => Option.some "the cat"

/-- Witness for C3 on the single-token detected input "ella" ("el" is a
substring): the `app.py` copy leaves it unchanged (token guard), the
`smartcities_analysis.py` copy translates it. -/
theorem traducir_es_en_detection_witness :
    ("ella" ≠ "") ∧
    (tiene_espanol "ella" = true) ∧
    ¬(1 < (pySplit "ella").length) ∧
    traducir_es_en trCat (.str "ella") = PyVal.str "ella" ∧
    traducir_es_en_sc trCat (.str "ella") = PyVal.str "the cat" :=
  ⟨by decide, by decide, by decide,
   (traducir_es_en_detection "ella" trCat (by decide)).2.2.1 (by decide),
   (traducir_es_en_detection "ella" trCat (by decide)).2.2.2.1 (by decide)⟩

/-! ## C8: normalizer error handling -/

/-- C8: the normalizer never raises to its caller: when the translation
capability fails, the original text is returned unchanged (both source
copies), and empty or non-string input is returned unchanged without
invoking translation (the result is independent of the translator). -/
theorem traducir_es_en_never_raises (s : String)
    (translate : String → Option String)
    (hfail : translate s = Option.none) :
    traducir_es_en translate (.str s) = .str s ∧
    traducir_es_en_sc translate (.str s) = .str s ∧
    (∀ tr : String → Option String,
      traducir_es_en tr (.str "") = .str "" ∧
      traducir_es_en tr .pyNone = .pyNone ∧
      traducir_es_en_sc tr (.str "") = .str "" ∧
      traducir_es_en_sc tr .pyNone = .pyNone) := by
  refine ⟨?_, ?_, fun tr => ⟨rfl, rfl, rfl, rfl⟩⟩
  · simp only [traducir_es_en]
    by_cases he : s = ""
    · rw [if_pos he]
    · rw [if_neg he]
      by_cases hd : tiene_espanol s = true ∧ 1 < (pySplit s).length
      · rw [if_pos hd, hfail]
      · rw [if_neg hd]
  · simp only [traducir_es_en_sc]
    by_cases he : s = ""
    · rw [if_pos he]
    · rw [if_neg he]
      by_cases hd : tiene_espanol s = true
      · rw [if_pos hd, hfail]
      · rw [if_neg hd]

/-- A concrete always-failing translator used by witnesses. -/
def trFail : String → Option String := fun _ => Option.none

/-- Witness for C8 on a detected-Spanish input with a failing translator. -/
theorem traducir_es_en_never_raises_witness :
    (trFail "el gato" = Option.none) ∧
    traducir_es_en trFail (.str "el gato") = PyVal.str "el gato" :=
  ⟨rfl, (traducir_es_en_never_raises "el gato" trFail rfl).1⟩

/-! ## C2: equivalence of the two analysis entry points -/

/-- A concrete translator that echoes its input (used by the C2
counterexample; it is never reached on the chosen input). -/
def trId : String → Option String := fun s => Option.some s

/-- A concrete conforming scorer (scores sum to 1, compound in [-1,1])
that is sensitive to capitalization, as the VADER lexicon scorer is. -/
def scCase : String → Option VScores := fun s =>
  if s = "GOOD" then Option.some { neg := 0, neu := 0, pos := 1, compound := mkRat 9 10 }
  else Option.some { neg := 0, neu := 1, pos := 0, compound := 0 }

/-- C2 counterexample: on input "GOOD" the `app.py` entry point scores
the raw text while the `smartcities_analysis.py` entry point scores the
cleaned lowercase text "good", so with a capitalization-sensitive scorer
the two produce different compound scores and different labels — the
equivalence claim is false. -/
theorem analizar_equivalence_counterexample :
    (analizar_sentimiento trId scCase (.str "GOOD")).sentimiento = "Positivo" ∧
    (analizar_sentimiento_sc trId scCase (.str "GOOD")).sentimiento = "Neutro" ∧
    (analizar_sentimiento trId scCase (.str "GOOD")).compound ≠
      (analizar_sentimiento_sc trId scCase (.str "GOOD")).compound := by decide

/-- C2 amended: the two entry points are not equivalent in general —
`smartcities_analysis.py` cleans the translated text before scoring and
translates without the more-than-one-token guard. They agree on every
input on which both normalizers return the same text and cleaning leaves
that text unchanged (and they share the identical classifier). -/
theorem analizar_equivalence_conditional (translate : String → Option String)
    (polarity_scores : String → Option VScores) (s t : String)
    (hs : s ≠ "")
    (h1 : traducir_es_en translate (.str s) = .str t)
    (h2 : traducir_es_en_sc translate (.str s) = .str t)
    (h3 : limpiar_texto (.str t) = t) :
    analizar_sentimiento translate polarity_scores (.str s) =
      analizar_sentimiento_sc translate polarity_scores (.str s) := by
  simp only [analizar_sentimiento, analizar_sentimiento_sc, if_neg hs,
    h1, h2, h3, stringOf]
  cases polarity_scores t with
  | some sc => rfl
  | none => rfl

/-- A concrete always-neutral scorer used by witnesses. -/
def scNeutral : String → Option VScores := fun _ =>
  Option.some { neg := 0, neu := 1, pos := 0, compound := 0 }

/-- Witness for C2 (amended) on the input "good", on which both
pipelines feed the scorer the same text. -/
theorem analizar_equivalence_conditional_witness :
    ("good" ≠ "") ∧
    traducir_es_en trFail (.str "good") = PyVal.str "good" ∧
    traducir_es_en_sc trFail (.str "good") = PyVal.str "good" ∧
    limpiar_texto (.str "good") = "good" ∧
    analizar_sentimiento trFail scNeutral (.str "good") =
      analizar_sentimiento_sc trFail scNeutral (.str "good") :=
  ⟨by decide, by decide, by decide, by decide,
   analizar_equivalence_conditional trFail scNeutral "good" "good"
     (by decide) (by decide) (by decide) (by decide)⟩

/-! ## C4: submission behavior on internal failure -/

/-- A concrete scorer that raises on every input. -/
def scRaise : String → Option VScores := fun _ => Option.none

/-- C4 counterexample: with a scorer that raises on every input, the
submission still reports success and appends the defaulted neutral
record — the store is changed and no internal error is surfaced, so the
claim as stated is false. -/
theorem agregar_scoring_failure_counterexample :
    (agregar_comentario trFail scRaise "2024-01-01 00:00:00" true
        "Great service" "N" "" FileState.emptyFile).2.1 = true ∧
    (agregar_comentario trFail scRaise "2024-01-01 00:00:00" true
        "Great service" "N" "" FileState.emptyFile).1 =
      FileState.wellFormed
        [{ id := 1, fecha := "2024-01-01 00:00:00", nombre := "N",
           email := "", comentario := "Great service",
           sentimiento := "Neutro", compound := 0, positivo := 0,
           negativo := 0, neutro := 1 }] := by decide

/-- C4 amended: an exception inside scoring is caught in the analyzer
and converted into the defaulted neutral result, which is appended as a
normal success; only a failure of the write step of
`agregar_comentario`'s own try block surfaces the failure indicator
`(False, None)` with the store untouched. -/
theorem agregar_comentario_failure_spec (translate : String → Option String)
    (polarity_scores : String → Option VScores)
    (now comentario nombre email : String) (fs : FileState)
    (hsc : polarity_scores
        (stringOf (traducir_es_en translate (.str comentario))) = Option.none)
    (hne : comentario ≠ "") :
    (agregar_comentario translate polarity_scores now false
        comentario nombre email fs = (fs, false, Option.none)) ∧
    ∃ fila : Row,
      agregar_comentario translate polarity_scores now true
          comentario nombre email fs
        = (FileState.wellFormed ((cargar_dataset fs).rows ++ [fila]), true,
           Option.some
             { comentario_original := .str comentario,
               comentario_traducido := .str comentario,
               neg := 0, neu := 1, pos := 0, compound := 0,
               sentimiento := "Neutro" }) ∧
      fila.sentimiento = "Neutro" ∧ fila.compound = 0 := by
  have hres : analizar_sentimiento translate polarity_scores (.str comentario) =
      { comentario_original := .str comentario,
        comentario_traducido := .str comentario,
        neg := 0, neu := 1, pos := 0, compound := 0,
        sentimiento := "Neutro" } := by
    simp only [analizar_sentimiento, if_neg hne, hsc]
  constructor
  · simp [agregar_comentario]
  · refine ⟨{ id := nextId (cargar_dataset fs), fecha := now,
              nombre := if nombre = "" then "Anónimo" else nombre,
              email := email, comentario := comentario,
              sentimiento := "Neutro", compound := 0, positivo := 0,
              negativo := 0, neutro := 1 }, ?_, rfl, rfl⟩
    simp [agregar_comentario, hres]

/-- Witness for C4 (amended): a failing write leaves the store untouched
and reports failure. -/
theorem agregar_comentario_failure_spec_witness :
    (scRaise (stringOf (traducir_es_en trFail (.str "Great service")))
       = Option.none) ∧
    ("Great service" ≠ "") ∧
    (agregar_comentario trFail scRaise "2024-01-01 00:00:00" false
        "Great service" "N" "" FileState.emptyFile
      = (FileState.emptyFile, false, Option.none)) :=
  ⟨rfl, by decide,
   (agregar_comentario_failure_spec trFail scRaise "2024-01-01 00:00:00"
     "Great service" "N" "" FileState.emptyFile rfl (by decide)).1⟩

/-! ## C5: load behavior -/

/-- The fold in `maxId` dominates its initial value. -/
lemma foldl_max_ge_init (rs : List Row) (a : Int) :
    a ≤ rs.foldl (fun b x => max b x.id) a := by
  induction rs generalizing a with
  | nil => exact le_refl a
  | cons r rs ih =>
    exact le_trans (le_max_left a r.id) (ih (max a r.id))

/-- The fold in `maxId` dominates every member's id. -/
lemma foldl_max_ge_mem (rs : List Row) (a : Int) (x : Row) (hx : x ∈ rs) :
    x.id ≤ rs.foldl (fun b x => max b x.id) a := by
  induction rs generalizing a with
  | nil => cases hx
  | cons r rs ih =>
    rcases List.mem_cons.mp hx with h | h
    · subst h
      exact le_trans (le_max_right a x.id) (foldl_max_ge_init rs (max a x.id))
    · exact ih (max a r.id) h

/-- Every id in a row list is at most `maxId`. -/
lemma le_maxId (rows : List Row) (r : Row) (hr : r ∈ rows) :
    r.id ≤ maxId rows := by
  match rows, hr with
  | r0 :: rs, hr =>
    rcases List.mem_cons.mp hr with h | h
    · subst h
      exact foldl_max_ge_init rs r.id
    · exact foldl_max_ge_mem rs r0.id r h

/-- Concrete rows used by counterexamples and witnesses. -/
def rowA : Row :=
  { id := 1, fecha := "f", nombre := "a", email := "", comentario := "c1",
    sentimiento := "Neutro", compound := 0, positivo := 0, negativo := 0,
    neutro := 1 }

/-- A second concrete row with id 2. -/
def rowB : Row :=
  { id := 2, fecha := "f", nombre := "b", email := "", comentario := "c2",
    sentimiento := "Neutro", compound := 0, positivo := 0, negativo := 0,
    neutro := 1 }

/-- C1 counterexample: starting from a table with ids {1, 2}, deleting
id 2 and then appending a new comment assigns the new record the
previously deleted id 2 — an id removed by deletion IS reassigned, so
the claim as stated is false. -/
theorem id_reuse_counterexample :
    ((2 : Int) ∈
      ((cargar_dataset (FileState.wellFormed [rowA, rowB])).rows.map Row.id)) ∧
    delete_comment 2 (FileState.wellFormed [rowA, rowB]) =
      FileState.wellFormed [rowA] ∧
    ((agregar_comentario trFail scNeutral "f" true "c3" "n" ""
        (delete_comment 2 (FileState.wellFormed [rowA, rowB]))).1).fileRows.map
        Row.id = [1, 2] := by decide

/-- C1 amended: a successful append assigns the new record the id
`max existing + 1` (1 if the table is empty), which differs from every
id currently in the table; it is NOT true that a deleted id is never
reassigned (see the counterexample). -/
theorem agregar_comentario_id_spec (translate : String → Option String)
    (polarity_scores : String → Option VScores)
    (now comentario nombre email : String) (fs : FileState) :
    ∃ fila : Row,
      (agregar_comentario translate polarity_scores now true
          comentario nombre email fs).1
        = FileState.wellFormed ((cargar_dataset fs).rows ++ [fila]) ∧
      fila.id = (if (cargar_dataset fs).rows = [] then 1
                 else maxId (cargar_dataset fs).rows + 1) ∧
      fila.id ∉ ((cargar_dataset fs).rows.map Row.id) := by
  refine ⟨{ id := nextId (cargar_dataset fs), fecha := now,
            nombre := if nombre = "" then "Anónimo" else nombre,
            email := email, comentario := comentario,
            sentimiento := (analizar_sentimiento translate polarity_scores
              (.str comentario)).sentimiento,
            compound := (analizar_sentimiento translate polarity_scores
              (.str comentario)).compound,
            positivo := (analizar_sentimiento translate polarity_scores
              (.str comentario)).pos,
            negativo := (analizar_sentimiento translate polarity_scores
              (.str comentario)).neg,
            neutro := (analizar_sentimiento translate polarity_scores
              (.str comentario)).neu }, ?_, ?_, ?_⟩
  · rfl
  · show nextId (cargar_dataset fs) = _
    cases fs with
    | absent => rfl
    | emptyFile => rfl
    | malformed => rfl
    | wellFormed rows =>
      cases rows with
      | nil => rfl
      | cons r rs =>
        simp [nextId, cargar_dataset, Table.isEmptyDf, Table.rows, Table.cols,
          fullSchema]
  · show nextId (cargar_dataset fs) ∉ _
    intro hmem
    rcases List.mem_map.mp hmem with ⟨r, hr, hrid⟩
    have hne : (cargar_dataset fs).rows ≠ [] := by
      intro hnil
      rw [hnil] at hr
      cases hr
    have hid : nextId (cargar_dataset fs) = maxId (cargar_dataset fs).rows + 1 := by
      cases fs with
      | absent => exact absurd rfl hne
      | emptyFile => exact absurd rfl hne
      | malformed => exact absurd rfl hne
      | wellFormed rows =>
        cases rows with
        | nil => exact absurd rfl hne
        | cons r0 rs =>
          simp [nextId, cargar_dataset, Table.isEmptyDf, Table.rows, Table.cols,
            fullSchema]
    have hle := le_maxId (cargar_dataset fs).rows r hr
    rw [hrid, hid] at hle
    omega

/-! ## C9: delete semantics -/

/-- A row sharing `rowA`'s id 1 but differing elsewhere. -/
def rowA2 : Row :=
  { id := 1, fecha := "f", nombre := "b", email := "", comentario := "c2",
    sentimiento := "Neutro", compound := 0, positivo := 0, negativo := 0,
    neutro := 1 }

/-- C9 counterexample: on a table holding two rows that share id 1 (the
claim quantifies over every table), the delete operation removes BOTH
matching rows, not exactly one: the row count drops from 2 to 0. -/
theorem delete_comment_counterexample :
    (∃ r ∈ (cargar_dataset (FileState.wellFormed [rowA, rowA2])).rows,
      r.id = 1) ∧
    (cargar_dataset (FileState.wellFormed [rowA, rowA2])).rows.length = 2 ∧
    (cargar_dataset
      (delete_comment 1 (FileState.wellFormed [rowA, rowA2]))).rows.length
      = 0 := by decide

/-- Removing the unique matching row shortens the list by exactly one. -/
lemma filter_ne_length (id : Int) (rows : List Row)
    (hnd : (rows.map Row.id).Nodup) (hex : ∃ r ∈ rows, r.id = id) :
    (rows.filter fun r => r.id ≠ id).length + 1 = rows.length := by
  induction rows with
  | nil => simp at hex
  | cons r rs ih =>
    simp only [List.map_cons, List.nodup_cons] at hnd
    obtain ⟨hnotin, hnd2⟩ := hnd
    by_cases h : r.id = id
    · have hall : List.filter (fun x => x.id ≠ id) rs = rs := by
        rw [List.filter_eq_self]
        intro x hx
        simp only [ne_eq, decide_eq_true_eq]
        intro heq
        exact hnotin (h ▸ heq ▸ List.mem_map_of_mem Row.id hx)
      rw [List.filter_cons_of_neg (by simp [h]), hall]
      simp
    · rw [List.filter_cons_of_pos (by simp [h])]
      have hex2 : ∃ x ∈ rs, x.id = id := by
        obtain ⟨x, hx, hxid⟩ := hex
        rcases List.mem_cons.mp hx with he | he
        · exact absurd (he ▸ hxid) h
        · exact ⟨x, he, hxid⟩
      have := ih hnd2 hex2
      simp only [List.length_cons]
      omega

/-- C9 amended: for every table satisfying the data-model invariant that
ids are unique, delete(id) removes exactly one row when a row with that
id exists (the count drops by one and every non-matching row is
preserved), and is a no-op — never an error — when no row has that id;
the unparsable-file state is likewise left untouched without error. -/
theorem delete_comment_spec (id : Int) (rows : List Row)
    (hnd : (rows.map Row.id).Nodup) :
    ((∃ r ∈ rows, r.id = id) →
      (cargar_dataset
        (delete_comment id (FileState.wellFormed rows))).rows.length + 1
        = rows.length ∧
      ∀ r ∈ rows, r.id ≠ id →
        r ∈ (cargar_dataset
          (delete_comment id (FileState.wellFormed rows))).rows) ∧
    ((∀ r ∈ rows, r.id ≠ id) →
      delete_comment id (FileState.wellFormed rows) =
        FileState.wellFormed rows) ∧
    delete_comment id FileState.malformed = FileState.malformed := by
  refine ⟨fun hex => ?_, fun hnone => ?_, rfl⟩
  · cases rows with
    | nil => simp at hex
    | cons r0 rs =>
      have hcond : (cargar_dataset (FileState.wellFormed (r0 :: rs))).isEmptyDf
          = false ∧ "id" ∈ (cargar_dataset (FileState.wellFormed (r0 :: rs))).cols := by
        simp [cargar_dataset, Table.isEmptyDf, Table.cols, fullSchema]
      constructor
      · simp only [delete_comment, if_pos hcond, cargar_dataset, Table.rows]
        exact filter_ne_length id (r0 :: rs) hnd hex
      · intro r hr hrne
        simp only [delete_comment, if_pos hcond, cargar_dataset, Table.rows]
        exact List.mem_filter.mpr ⟨hr, by simp [hrne]⟩
  · cases rows with
    | nil => rfl
    | cons r0 rs =>
      have hall : List.filter (fun r => decide (r.id ≠ id)) (r0 :: rs)
          = r0 :: rs := by
        rw [List.filter_eq_self]
        intro a ha
        simp only [ne_eq, decide_eq_true_eq]
        exact hnone a ha
      simp [delete_comment, cargar_dataset, Table.isEmptyDf, Table.rows,
        Table.cols, fullSchema, hall]
      exact ⟨hnone r0 (List.mem_cons_self r0 rs),
        fun a ha => hnone a (List.mem_cons_of_mem r0 ha)⟩

/-- Witness for C9 (amended): deleting an id not present in a
unique-id table is a no-op. -/
theorem delete_comment_spec_witness :
    (([rowA, rowB].map Row.id).Nodup) ∧
    ((∀ r ∈ [rowA, rowB], r.id ≠ (5 : Int)) →
      delete_comment 5 (FileState.wellFormed [rowA, rowB]) =
        FileState.wellFormed [rowA, rowB]) :=
  ⟨by decide, (delete_comment_spec 5 [rowA, rowB] (by decide)).2.1⟩

/-! ## C10: label partition of reachable statistics -/

/-- Loading exposes exactly the rows recorded in the file. -/
lemma cargar_rows_eq (fs : FileState) :
    (cargar_dataset fs).rows = fs.fileRows := by
  cases fs <;> rfl

/-- Every seed row's label is a classifier output. -/
lemma seedRows_label (translate : String → Option String)
    (polarity_scores : String → Option VScores) (now : String)
    (i : Nat) (l : List (String × String)) :
    ∀ r ∈ seedRows translate polarity_scores now i l,
      r.sentimiento ∈ ["Positivo", "Negativo", "Neutro"] := by
  induction l generalizing i with
  | nil => intro r hr; cases hr
  | cons p rest ih =>
    intro r hr
    match p, hr with
    | (comentario, nombre), hr =>
      rcases List.mem_cons.mp hr with h | h
      · subst h
        exact analizar_sentimiento_label translate polarity_scores (.str comentario)
      · exact ih (i + 1) r h

/-- Pipeline invariant: every row of a reachable file state carries one
of the three classifier labels. -/
lemma reachable_labels (fs : FileState) (h : Reachable fs) :
    ∀ r ∈ fs.fileRows, r.sentimiento ∈ ["Positivo", "Negativo", "Neutro"] := by
  induction h with
  | init_absent => intro r hr; cases hr
  | init_empty => intro r hr; cases hr
  | seed translate polarity_scores now fs2 h2 ih =>
    cases fs2 with
    | absent =>
      exact seedRows_label translate polarity_scores now 0 ejemplos
    | emptyFile =>
      exact seedRows_label translate polarity_scores now 0 ejemplos
    | malformed => exact ih
    | wellFormed rows => exact ih
  | append translate polarity_scores now writeOk comentario nombre email fs2 h2 ih =>
    cases writeOk with
    | false => exact ih
    | true =>
      intro r hr
      simp only [agregar_comentario, if_pos rfl, FileState.fileRows] at hr
      rcases List.mem_append.mp hr with h | h
      · exact ih r (by rw [← cargar_rows_eq]; exact h)
      · rcases List.mem_singleton.mp h with rfl
        exact analizar_sentimiento_label translate polarity_scores (.str comentario)
  | del id fs2 h2 ih =>
    intro r hr
    by_cases hcond : (cargar_dataset fs2).isEmptyDf = false ∧
        "id" ∈ (cargar_dataset fs2).cols
    · simp only [delete_comment, if_pos hcond, FileState.fileRows] at hr
      exact ih r (by rw [← cargar_rows_eq]; exact (List.mem_filter.mp hr).1)
    · simp only [delete_comment, if_neg hcond] at hr
      exact ih r hr

/-- If every row's label is one of the three, the three label counts
partition the row count. -/
lemma count_three_labels (rows : List Row)
    (h : ∀ r ∈ rows, r.sentimiento ∈ ["Positivo", "Negativo", "Neutro"]) :
    countLabel "Positivo" rows + countLabel "Negativo" rows +
      countLabel "Neutro" rows = rows.length := by
  induction rows with
  | nil => rfl
  | cons r rs ih =>
    have hr := h r (List.mem_cons_self r rs)
    have hrest := ih fun x hx => h x (List.mem_cons_of_mem r hx)
    simp only [List.mem_cons, List.mem_singleton, List.not_mem_nil] at hr
    simp only [countLabel, List.filter_cons, List.length_cons]
    rcases hr with hP | hN | hNe | hF
    · simp only [countLabel] at hrest
      simp [hP]
      omega
    · simp only [countLabel] at hrest
      simp [hN]
      omega
    · simp only [countLabel] at hrest
      simp [hNe]
      omega
    · cases hF

/-- C10: for every file state reachable from the empty store through the
pipeline operations (seed initialization, appends, deletes), the
aggregated statistics satisfy positives + negatives + neutrals = total,
because every stored sentiment label — including on the internal
error/fallback path — is one of the three classifier outputs. -/
theorem estadisticas_reachable_sum (fs : FileState) (h : Reachable fs) :
    (obtener_estadisticas (cargar_dataset fs)).positivos +
      (obtener_estadisticas (cargar_dataset fs)).negativos +
      (obtener_estadisticas (cargar_dataset fs)).neutros =
      (obtener_estadisticas (cargar_dataset fs)).total := by
  have hlab := reachable_labels fs h
  unfold obtener_estadisticas
  by_cases he : (cargar_dataset fs).isEmptyDf = true
  · rw [if_pos he]
    rfl
  · rw [if_neg he]
    exact count_three_labels (cargar_dataset fs).rows
      fun r hr => hlab r (by rw [← cargar_rows_eq]; exact hr)

/-- Witness for C10 at the reachable empty store. -/
theorem estadisticas_reachable_sum_witness :
    (obtener_estadisticas (cargar_dataset FileState.emptyFile)).positivos +
      (obtener_estadisticas (cargar_dataset FileState.emptyFile)).negativos +
      (obtener_estadisticas (cargar_dataset FileState.emptyFile)).neutros =
      (obtener_estadisticas (cargar_dataset FileState.emptyFile)).total :=
  estadisticas_reachable_sum FileState.emptyFile Reachable.init_empty
